import Mathlib

/-!
Shallow embedding of `src/hoverxref/extension.py` (the sphinx-hoverxref
extension): the hover-metadata resolution interceptor
(`HoverXRefStandardDomain`), the HTML render interceptor
(`HoverXRefHTMLTranslator.starttag`), the asset-templating hook
(`copy_asset_files`) and the configuration registration in `setup`.

Python dictionaries are modelled as association lists of string pairs with
`dictInsert`/`dictUpdate` replicating `dict.update` semantics (existing keys
keep their position and get the new value, fresh keys are appended).
Optional strings model Python values that may be `None`; `truthy` replicates
Python truthiness on them (both `None` and `''` are falsy).

The repository modules `hoverxref/utils.py` (identifier extraction:
`get_ref_xref_data`, `get_ref_obj_data`) and `hoverxref/registry.py`
(`registry.object_types`) are not under `src/`; following the spec
(sections 4.1 and 6) the extraction result is passed in as an opaque
`(docname, labelid)` pair and the registry as an opaque list of type names.
-/

namespace Hoverxref

/-- Python truthiness of an optional string: `None` and `""` are falsy. -/
def truthy : Option String → Bool
  | none => false
  | some s => s ≠ ""

/-- The three configuration options read by the resolution interceptor
(`hoverxref_project`, `hoverxref_version`, `hoverxref_auto_ref`).
Project and version may be unset (`None`) or empty. -/
structure Config where
  hoverxref_project : Option String
  hoverxref_version : Option String
  hoverxref_auto_ref : Bool
deriving Repr, DecidableEq

/-- A docutils reference node as far as the extension reads or writes it:
its `ids` attribute, its `classes` attribute, its parent's `ids` attribute
(read by `starttag` on `dt` tags), and the `_hoverxref` dict stashed on the
node by `_inject_hoverxref_data` (absent on nodes built by the host). -/
structure Node where
  ids : List String
  classes : List String
  parentIds : List String
  hoverxref : Option (List (String × String))
deriving Repr, DecidableEq

/-- `HoverXRefStandardDomain._is_hoverxref_configured`: `project and version`
as a Python truth value. -/
def is_hoverxref_configured (cfg : Config) : Bool :=
  truthy cfg.hoverxref_project && truthy cfg.hoverxref_version

/-- The `_hoverxref` dict built by `_inject_hoverxref_data`, in insertion
order. A `None` project or version renders as the empty string here; the
callers only inject when both are truthy. -/
def hoverxrefDict (cfg : Config) (docname labelid : String) : List (String × String) :=
  [("data-project", cfg.hoverxref_project.getD ""),
   ("data-version", cfg.hoverxref_version.getD ""),
   ("data-doc", docname),
   ("data-section", labelid)]

/-- `HoverXRefStandardDomain._inject_hoverxref_data`: overwrite the node's
`classes` with the single marker class and stash the `_hoverxref` dict. -/
def inject_hoverxref_data (cfg : Config) (refnode : Node) (docname labelid : String) : Node :=
  { refnode with
    classes := ["hoverxref"],
    hoverxref := some (hoverxrefDict cfg docname labelid) }

/-- Result of a resolution-interceptor call: the node handed back to the
host (or `none` when the super resolution failed) together with the number
of warnings logged during the call. -/
structure ResolveResult where
  refnode : Option Node
  warnings : Nat
deriving Repr, DecidableEq

/-- `HoverXRefStandardDomain._resolve_ref_xref`. `superResult` is the node
returned by `StandardDomain._resolve_ref_xref` (the host's resolution);
`(docname, labelid)` is the pair computed by `get_ref_xref_data` (module
`hoverxref/utils.py`, not under `src/`): per spec section 4.1 it is the
document containing the resolved label and the label's anchor id. -/
def resolve_ref_xref (cfg : Config) (typ : String)
    (superResult : Option Node) (docname labelid : String) : ResolveResult :=
  match superResult with
  | none => { refnode := none, warnings := 0 }
  | some refnode =>
    let warnings := if !is_hoverxref_configured cfg && typ == "hoverxref" then 1 else 0
    let refnode :=
      if is_hoverxref_configured cfg && (cfg.hoverxref_auto_ref || typ == "hoverxref") then
        inject_hoverxref_data cfg refnode docname labelid
      else refnode
    { refnode := some refnode, warnings := warnings }

/-- `HoverXRefStandardDomain._resolve_obj_xref`. `object_types` is
`registry.object_types` (module `hoverxref/registry.py`, not under `src/`),
per spec section 6 an opaque inventory of object-type names registered by
other extensions; `(docname, labelid)` is the `get_ref_obj_data` output. -/
def resolve_obj_xref (cfg : Config) (object_types : List String) (typ : String)
    (superResult : Option Node) (docname labelid : String) : ResolveResult :=
  match superResult with
  | none => { refnode := none, warnings := 0 }
  | some refnode =>
    let refnode :=
      if object_types.contains typ && is_hoverxref_configured cfg then
        inject_hoverxref_data cfg refnode docname labelid
      else refnode
    { refnode := some refnode, warnings := 0 }

/-- Modelled from the spec: the host `StandardDomain.resolve_xref` dispatch
(external collaborator, spec section 6): label/anchor references (`ref`) go
to `_resolve_ref_xref`, object-typed references to `_resolve_obj_xref`, any
other kind passes through with the host's own resolution untouched. The
dynamic dispatch reaches the overriding methods of
`HoverXRefStandardDomain`. -/
def std_resolve_xref (cfg : Config) (object_types : List String) (typ : String)
    (superResult : Option Node) (docname labelid : String) : ResolveResult :=
  if typ == "ref" then
    resolve_ref_xref cfg typ superResult docname labelid
  else if object_types.contains typ then
    resolve_obj_xref cfg object_types typ superResult docname labelid
  else
    { refnode := superResult, warnings := 0 }

/-- `HoverXRefStandardDomain.resolve_xref`: the dedicated `hoverxref` role is
routed to `_resolve_ref_xref`; everything else is delegated to the host's
`resolve_xref` (here `std_resolve_xref`). -/
def resolve_xref (cfg : Config) (object_types : List String) (typ : String)
    (superResult : Option Node) (docname labelid : String) : ResolveResult :=
  if typ == "hoverxref" then
    resolve_ref_xref cfg typ superResult docname labelid
  else
    std_resolve_xref cfg object_types typ superResult docname labelid

/-- One step of Python `dict.update`: if the key is already present, every
entry with that key gets the new value in place; otherwise the pair is
appended. -/
def dictInsert (d : List (String × String)) (k v : String) : List (String × String) :=
  if d.any (fun p => p.1 == k) then
    d.map (fun p => if p.1 = k then (k, v) else p)
  else
    d ++ [(k, v)]

/-- Python `d.update(u)` on string-keyed dicts as association lists. -/
def dictUpdate (d u : List (String × String)) : List (String × String) :=
  u.foldl (fun acc kv => dictInsert acc kv.1 kv.2) d

/-- Lookup of the first entry with the given key. -/
def dlookup (k : String) : List (String × String) → Option String
  | [] => none
  | p :: rest => if p.1 = k then some p.2 else dlookup k rest

/-- Result of `HoverXRefHTMLTranslator.starttag`: the (possibly mutated)
node and the attribute dict handed to the host `HTMLTranslator.starttag`. -/
structure StarttagResult where
  node : Node
  attributes : List (String × String)
deriving Repr, DecidableEq

/-- `HoverXRefHTMLTranslator.starttag`: on an `a` tag carrying `_hoverxref`,
merge the stashed dict into the attributes; on a `dt` tag whose `ids` equal
its parent's `ids`, clear the node's `ids`; otherwise pass through. -/
def starttag (node : Node) (tagname : String) (attributes : List (String × String)) :
    StarttagResult :=
  if tagname == "a" then
    match node.hoverxref with
    | some h => { node := node, attributes := dictUpdate attributes h }
    | none => { node := node, attributes := attributes }
  else if tagname == "dt" then
    if node.parentIds == node.ids then
      { node := { node with ids := [] }, attributes := attributes }
    else
      { node := node, attributes := attributes }
  else
    { node := node, attributes := attributes }

/-- The `ASSETS_FILES` list of `extension.py`. -/
def ASSETS_FILES : List String :=
  ["js/hoverxref.js_t",
   "js/tooltipster.bundle.min.js",
   "css/tooltipster.custom.css",
   "css/tooltipster.bundle.min.css",
   "css/tooltipster-sideTip-shadow.min.css"]

/-- The template context of `copy_asset_files`: first the declared default
of every config option namespaced `hoverxref_`, then the active value of
every such option on top. -/
def build_asset_context (defaults actuals : List (String × String)) :
    List (String × String) :=
  dictUpdate (dictUpdate [] (defaults.filter (fun p => p.1.startsWith "hoverxref_")))
    (actuals.filter (fun p => p.1.startsWith "hoverxref_"))

/-- Destination subdirectory of an asset under `_static`:
`f.split('.')[-1].replace('js_t', 'js')`. -/
def asset_dest_subdir (f : String) : String :=
  ((f.splitOn ".").getLastD "").replace "js_t" "js"

/-- One `copy_asset` invocation recorded by the model: source path,
destination path and the template context passed along. -/
structure CopyAction where
  source : String
  dest : String
  context : List (String × String)
deriving Repr, DecidableEq

/-- `copy_asset_files(app, exception)`: the build-finished hook. When
`exception` is non-null nothing happens; otherwise the template context is
built and each asset file is copied (templates rendered) into the output
tree. `defaults` stands for `app.config.values` restricted to the pairs
`(name, declared default)`, `actuals` for `getattr(app.config, name)`. -/
def copy_asset_files (defaults actuals : List (String × String)) (outdir : String)
    (exception : Option String) : List CopyAction :=
  match exception with
  | some _ => []
  | none =>
    let context := build_asset_context defaults actuals
    ASSETS_FILES.map (fun f =>
      { source := "_static/" ++ f,
        dest := outdir ++ "/_static/" ++ asset_dest_subdir f,
        context := context })

/-- A declared configuration default value, as passed to
`app.add_config_value`. -/
inductive ConfigValue where
  | str : String → ConfigValue
  | optStr : Option String → ConfigValue
  | bool : Bool → ConfigValue
  | nat : Nat → ConfigValue
  | strList : List String → ConfigValue
deriving Repr, DecidableEq

/-- The `app.add_config_value` calls of `setup`, in order: option name,
declared default, rebuild marker. `default_project` and `default_version`
are `os.environ.get('READTHEDOCS_PROJECT')` and
`os.environ.get('READTHEDOCS_VERSION')`. -/
def setup_config_values (default_project default_version : Option String) :
    List (String × ConfigValue × String) :=
  [("hoverxref_project", ConfigValue.optStr default_project, "html"),
   ("hoverxref_version", ConfigValue.optStr default_version, "html"),
   ("hoverxref_auto_ref", ConfigValue.bool false, "env"),
   ("hoverxref_tooltip_api_host", ConfigValue.str "https://readthedocs.org", "env"),
   ("hoverxref_tooltip_theme",
     ConfigValue.strList ["tooltipster-shadow", "tooltipster-shadow-custom"], "env"),
   ("hoverxref_tooltip_interactive", ConfigValue.bool true, "env"),
   ("hoverxref_tooltip_maxwidth", ConfigValue.nat 450, "env"),
   ("hoverxref_tooltip_animation", ConfigValue.str "fade", "env"),
   ("hoverxref_tooltip_animation_duration", ConfigValue.nat 0, "env"),
   ("hoverxref_tooltip_content", ConfigValue.str "Loading...", "env"),
   ("hoverxref_tooltip_class", ConfigValue.str "rst-content", "env")]

/-- The effective resolution config when the user overrides nothing: the
declared defaults, read from the process environment in `setup`
(`os.environ.get('READTHEDOCS_PROJECT')`, `READTHEDOCS_VERSION`), with
`hoverxref_auto_ref` at its declared default or a user value `auto`. -/
def config_from_env (env : String → Option String) (auto : Bool) : Config :=
  { hoverxref_project := env "READTHEDOCS_PROJECT",
    hoverxref_version := env "READTHEDOCS_VERSION",
    hoverxref_auto_ref := auto }

/-- A plain reference node as the host builds it: default classes, no
stashed `_hoverxref` dict. Used as a concrete instantiation in proofs. -/
def testNode : Node :=
  { ids := [], classes := ["reference", "internal"], parentIds := [], hoverxref := none }

/-- A fully configured `Config`, matching the repository test
`test_project_version_settings`. -/
def testConfig : Config :=
  { hoverxref_project := some "myproject",
    hoverxref_version := some "myversion",
    hoverxref_auto_ref := false }

/-- An unconfigured `Config`: both project and version unset. -/
def emptyConfig : Config :=
  { hoverxref_project := none, hoverxref_version := none, hoverxref_auto_ref := false }

/-- A process environment carrying the two Read the Docs variables. -/
def testEnv : String → Option String := fun s =>
  if s = "READTHEDOCS_PROJECT" then some "envproject"
  else if s = "READTHEDOCS_VERSION" then some "envversion"
  else none

/-- Inserting a key that the head entry does not carry commutes with the
head. -/
theorem dictInsert_cons_ne (p : String × String) (rest : List (String × String))
    (k v : String) (h : p.1 ≠ k) :
    dictInsert (p :: rest) k v = p :: dictInsert rest k v := by
  by_cases hr : rest.any (fun q => q.1 == k)
  · simp [dictInsert, List.any_cons, hr, h]
  · simp [dictInsert, List.any_cons, hr, h]

/-- Replacing entries keyed `k'` does not change the first entry keyed `k`. -/
theorem dlookup_map_replace_ne (rest : List (String × String)) (k k' v : String)
    (h : k' ≠ k) :
    dlookup k (rest.map (fun q => if q.1 = k' then (k', v) else q)) = dlookup k rest := by
  induction rest with
  | nil => simp [dlookup]
  | cons p tail ih =>
    by_cases hp : p.1 = k'
    · have hk : ¬ p.1 = k := by rw [hp]; exact h
      simp [dlookup, hp, hk, h, ih]
    · by_cases hk : p.1 = k
      · simp [dlookup, hp, hk, Ne.symm h]
      · simp [dlookup, hp, hk, ih]

/-- After a `dict.update`-style insert, looking up the inserted key yields
the inserted value. -/
theorem dlookup_dictInsert_self (d : List (String × String)) (k v : String) :
    dlookup k (dictInsert d k v) = some v := by
  induction d with
  | nil => simp [dictInsert, dlookup]
  | cons p rest ih =>
    by_cases hp : p.1 = k
    · simp [dictInsert, List.any_cons, hp, dlookup]
    · rw [dictInsert_cons_ne p rest k v hp]
      simpa [dlookup, hp] using ih

/-- Inserting a different key leaves a lookup unchanged. -/
theorem dlookup_dictInsert_ne (d : List (String × String)) (k k' v : String)
    (h : k' ≠ k) : dlookup k (dictInsert d k' v) = dlookup k d := by
  induction d with
  | nil => simp [dictInsert, dlookup, h]
  | cons p rest ih =>
    by_cases hp : p.1 = k'
    · have hk : ¬ p.1 = k := by rw [hp]; exact h
      simp only [dictInsert, List.any_cons, hp, beq_self_eq_true, Bool.true_or, if_pos,
        List.map_cons, if_true]
      simp [dlookup, hp, hk, h, dlookup_map_replace_ne rest k k' v h]
    · rw [dictInsert_cons_ne p rest k' v hp]
      by_cases hk : p.1 = k
      · simp [dlookup, hk]
      · simpa [dlookup, hk] using ih

/-- `dictUpdate` by the four-entry `_hoverxref` dict is the chain of the
four inserts, in insertion order. -/
theorem dictUpdate_hoverxrefDict (attrs : List (String × String)) (cfg : Config)
    (docname labelid : String) :
    dictUpdate attrs (hoverxrefDict cfg docname labelid) =
      dictInsert (dictInsert (dictInsert (dictInsert attrs
        "data-project" (cfg.hoverxref_project.getD ""))
        "data-version" (cfg.hoverxref_version.getD ""))
        "data-doc" docname)
        "data-section" labelid := rfl

/-- Looking up each of the four metadata keys after merging the
`_hoverxref` dict into an arbitrary attribute dict yields the metadata
values, whatever the attribute dict already contained. -/
theorem dlookup_dictUpdate_hoverxrefDict (attrs : List (String × String)) (cfg : Config)
    (docname labelid : String) :
    dlookup "data-project" (dictUpdate attrs (hoverxrefDict cfg docname labelid)) =
      some (cfg.hoverxref_project.getD "")
    ∧ dlookup "data-version" (dictUpdate attrs (hoverxrefDict cfg docname labelid)) =
      some (cfg.hoverxref_version.getD "")
    ∧ dlookup "data-doc" (dictUpdate attrs (hoverxrefDict cfg docname labelid)) =
      some docname
    ∧ dlookup "data-section" (dictUpdate attrs (hoverxrefDict cfg docname labelid)) =
      some labelid := by
  rw [dictUpdate_hoverxrefDict]
  refine ⟨?_, ?_, ?_, ?_⟩
  · rw [dlookup_dictInsert_ne _ _ _ _ (by decide), dlookup_dictInsert_ne _ _ _ _ (by decide),
      dlookup_dictInsert_ne _ _ _ _ (by decide), dlookup_dictInsert_self]
  · rw [dlookup_dictInsert_ne _ _ _ _ (by decide), dlookup_dictInsert_ne _ _ _ _ (by decide),
      dlookup_dictInsert_self]
  · rw [dlookup_dictInsert_ne _ _ _ _ (by decide), dlookup_dictInsert_self]
  · rw [dlookup_dictInsert_self]

/-- Claim C1: a reference resolved through the dedicated `hoverxref` role with
project and version both configured non-empty comes back with `classes`
overwritten to the marker token, a `_hoverxref` dict holding exactly the four
keys `data-project`, `data-version`, `data-doc`, `data-section` with the
configured project, configured version, containing document and anchor id as
values, no warning, and the emitted anchor's attribute dict resolves each of
the four keys to those values. -/
theorem hoverxref_role_configured_injects_exact_metadata
    (cfg : Config) (proj ver : String) (n : Node) (docname labelid : String)
    (attrs : List (String × String))
    (hp : cfg.hoverxref_project = some proj) (hv : cfg.hoverxref_version = some ver)
    (hp' : proj ≠ "") (hv' : ver ≠ "") :
    resolve_ref_xref cfg "hoverxref" (some n) docname labelid =
      { refnode := some { n with
          classes := ["hoverxref"],
          hoverxref := some [("data-project", proj), ("data-version", ver),
                             ("data-doc", docname), ("data-section", labelid)] },
        warnings := 0 }
    ∧ dlookup "data-project"
        (starttag (inject_hoverxref_data cfg n docname labelid) "a" attrs).attributes = some proj
    ∧ dlookup "data-version"
        (starttag (inject_hoverxref_data cfg n docname labelid) "a" attrs).attributes = some ver
    ∧ dlookup "data-doc"
        (starttag (inject_hoverxref_data cfg n docname labelid) "a" attrs).attributes = some docname
    ∧ dlookup "data-section"
        (starttag (inject_hoverxref_data cfg n docname labelid) "a" attrs).attributes = some labelid := by
  have hcfg : is_hoverxref_configured cfg = true := by
    simp [is_hoverxref_configured, truthy, hp, hv, hp', hv']
  have hmerge : (starttag (inject_hoverxref_data cfg n docname labelid) "a" attrs).attributes
      = dictUpdate attrs (hoverxrefDict cfg docname labelid) := by
    simp [starttag, inject_hoverxref_data]
  obtain ⟨h1, h2, h3, h4⟩ := dlookup_dictUpdate_hoverxrefDict attrs cfg docname labelid
  refine ⟨?_, ?_, ?_, ?_, ?_⟩
  · simp [resolve_ref_xref, hcfg, inject_hoverxref_data, hoverxrefDict, hp, hv]
  · rw [hmerge, h1, hp]; rfl
  · rw [hmerge, h2, hv]; rfl
  · rw [hmerge, h3]
  · rw [hmerge, h4]

/-- Witness for C1 at the repository test fixture: project `myproject`,
version `myversion`, a `:hoverxref:` reference to label `section-i` of
document `chapter-i`, with an attribute dict already carrying a colliding
`data-project` entry. -/
theorem hoverxref_role_configured_injects_exact_metadata_witness :
    resolve_ref_xref testConfig "hoverxref" (some testNode) "chapter-i" "section-i" =
      { refnode := some { testNode with
          classes := ["hoverxref"],
          hoverxref := some [("data-project", "myproject"), ("data-version", "myversion"),
                             ("data-doc", "chapter-i"), ("data-section", "section-i")] },
        warnings := 0 }
    ∧ dlookup "data-project"
        (starttag (inject_hoverxref_data testConfig testNode "chapter-i" "section-i") "a"
          [("href", "chapter-i.html#section-i"), ("data-project", "old")]).attributes =
        some "myproject"
    ∧ dlookup "data-version"
        (starttag (inject_hoverxref_data testConfig testNode "chapter-i" "section-i") "a"
          [("href", "chapter-i.html#section-i"), ("data-project", "old")]).attributes =
        some "myversion"
    ∧ dlookup "data-doc"
        (starttag (inject_hoverxref_data testConfig testNode "chapter-i" "section-i") "a"
          [("href", "chapter-i.html#section-i"), ("data-project", "old")]).attributes =
        some "chapter-i"
    ∧ dlookup "data-section"
        (starttag (inject_hoverxref_data testConfig testNode "chapter-i" "section-i") "a"
          [("href", "chapter-i.html#section-i"), ("data-project", "old")]).attributes =
        some "section-i" :=
  hoverxref_role_configured_injects_exact_metadata testConfig "myproject" "myversion" testNode
    "chapter-i" "section-i" [("href", "chapter-i.html#section-i"), ("data-project", "old")]
    rfl rfl (by decide) (by decide)

/-- Claim C3: a reference resolved through the dedicated `hoverxref` role with
project or version unset comes back as the host's plain node, unchanged (no
metadata, no marker class), exactly one warning is logged, and the emitted
anchor's attribute dict is exactly what the host passed in. -/
theorem hoverxref_role_unconfigured_warns_once_unchanged
    (cfg : Config) (n : Node) (docname labelid : String) (attrs : List (String × String))
    (hconf : is_hoverxref_configured cfg = false) (hn : n.hoverxref = none) :
    resolve_ref_xref cfg "hoverxref" (some n) docname labelid =
      { refnode := some n, warnings := 1 }
    ∧ (starttag n "a" attrs).attributes = attrs := by
  constructor
  · simp [resolve_ref_xref, hconf]
  · simp [starttag, hn]

/-- Witness for C3: unconfigured extension, plain node, one warning. -/
theorem hoverxref_role_unconfigured_warns_once_unchanged_witness :
    resolve_ref_xref emptyConfig "hoverxref" (some testNode) "chapter-i" "section-i" =
      { refnode := some testNode, warnings := 1 }
    ∧ (starttag testNode "a" [("href", "chapter-i.html#section-i")]).attributes =
      [("href", "chapter-i.html#section-i")] :=
  hoverxref_role_unconfigured_warns_once_unchanged emptyConfig testNode "chapter-i" "section-i"
    [("href", "chapter-i.html#section-i")] rfl rfl

/-- Claim C5: on an `a` tag carrying a stashed `_hoverxref` dict the render
interceptor merges the four metadata pairs into the attribute dict before
emission, and any metadata key wins over a colliding attribute already
present: every lookup answered by the metadata dict is answered the same way
by the merged attribute dict. -/
theorem starttag_anchor_merges_metadata
    (node : Node) (attrs : List (String × String)) (cfg : Config)
    (docname labelid : String)
    (h : node.hoverxref = some (hoverxrefDict cfg docname labelid)) :
    (starttag node "a" attrs).attributes = dictUpdate attrs (hoverxrefDict cfg docname labelid)
    ∧ ∀ k w, dlookup k (hoverxrefDict cfg docname labelid) = some w →
        dlookup k (starttag node "a" attrs).attributes = some w := by
  have hmerge : (starttag node "a" attrs).attributes
      = dictUpdate attrs (hoverxrefDict cfg docname labelid) := by
    simp [starttag, h]
  refine ⟨hmerge, ?_⟩
  intro k w hkw
  rw [hmerge]
  obtain ⟨h1, h2, h3, h4⟩ := dlookup_dictUpdate_hoverxrefDict attrs cfg docname labelid
  by_cases e1 : "data-project" = k
  · subst e1
    simp [hoverxrefDict, dlookup] at hkw
    rw [h1, hkw]
  by_cases e2 : "data-version" = k
  · subst e2
    simp [hoverxrefDict, dlookup, e1] at hkw
    rw [h2, hkw]
  by_cases e3 : "data-doc" = k
  · subst e3
    simp [hoverxrefDict, dlookup, e1, e2] at hkw
    rw [h3, hkw]
  by_cases e4 : "data-section" = k
  · subst e4
    simp [hoverxrefDict, dlookup, e1, e2, e3] at hkw
    rw [h4, hkw]
  · simp [hoverxrefDict, dlookup, e1, e2, e3, e4] at hkw

/-- Witness for C5: a node stashed with the test metadata, merged over an
attribute dict already holding `data-doc` and `href` entries. -/
theorem starttag_anchor_merges_metadata_witness :
    (starttag { testNode with
        hoverxref := some (hoverxrefDict testConfig "chapter-i" "section-i") } "a"
        [("data-doc", "stale"), ("href", "x")]).attributes =
      dictUpdate [("data-doc", "stale"), ("href", "x")]
        (hoverxrefDict testConfig "chapter-i" "section-i")
    ∧ ∀ k w, dlookup k (hoverxrefDict testConfig "chapter-i" "section-i") = some w →
        dlookup k (starttag { testNode with
          hoverxref := some (hoverxrefDict testConfig "chapter-i" "section-i") } "a"
          [("data-doc", "stale"), ("href", "x")]).attributes = some w :=
  starttag_anchor_merges_metadata
    { testNode with hoverxref := some (hoverxrefDict testConfig "chapter-i" "section-i") }
    [("data-doc", "stale"), ("href", "x")] testConfig "chapter-i" "section-i" rfl

/-- Claim C6: on a `dt` tag whose `ids` equal its parent's `ids`, the render
interceptor clears the term node's `ids` to the empty list before emission —
the emitted term tag carries no identifier — the parent's `ids` are left as
they were, and the attribute dict passes through unchanged. -/
theorem starttag_dt_clears_duplicate_ids
    (node : Node) (attrs : List (String × String))
    (h : node.parentIds = node.ids) :
    (starttag node "dt" attrs).node.ids = []
    ∧ (starttag node "dt" attrs).node.parentIds = node.parentIds
    ∧ (starttag node "dt" attrs).attributes = attrs := by
  simp [starttag, h]

/-- Witness for C6 at the `confval` fixture of the repository test
`test_custom_object`: parent and term both carry `confval-conf-title`. -/
theorem starttag_dt_clears_duplicate_ids_witness :
    (starttag (Node.mk ["confval-conf-title"] [] ["confval-conf-title"] none)
        "dt" []).node.ids = []
    ∧ (starttag (Node.mk ["confval-conf-title"] [] ["confval-conf-title"] none)
        "dt" []).node.parentIds =
      (Node.mk ["confval-conf-title"] [] ["confval-conf-title"] none).parentIds
    ∧ (starttag (Node.mk ["confval-conf-title"] [] ["confval-conf-title"] none)
        "dt" []).attributes = [] :=
  starttag_dt_clears_duplicate_ids
    (Node.mk ["confval-conf-title"] [] ["confval-conf-title"] none) [] rfl

/-- Claim C7: the build-finished hook does nothing when the build failed:
with a non-null exception no template context is built and no asset is
rendered, written or copied. -/
theorem copy_asset_files_skips_on_exception
    (defaults actuals : List (String × String)) (outdir : String) (e : String) :
    copy_asset_files defaults actuals outdir (some e) = [] := rfl

/-- Claim C2: with the auto-apply flag on and project and version configured,
a generic reference (any kind other than the dedicated role) resolved through
the label-reference interceptor gets exactly the same treatment as one using
the dedicated role, and a `ref`-kind reference routed through `resolve_xref`
comes back with the hover metadata injected. -/
theorem auto_ref_generic_matches_hoverxref_role
    (cfg : Config) (object_types : List String) (typ : String) (n : Node)
    (docname labelid : String)
    (htyp : typ ≠ "hoverxref") (hconf : is_hoverxref_configured cfg = true)
    (hauto : cfg.hoverxref_auto_ref = true) :
    resolve_ref_xref cfg typ (some n) docname labelid =
      resolve_ref_xref cfg "hoverxref" (some n) docname labelid
    ∧ (resolve_xref cfg object_types "ref" (some n) docname labelid).refnode =
        some (inject_hoverxref_data cfg n docname labelid) := by
  have hne : ("ref" == "hoverxref") = false := by decide
  have hr : ("ref" == "ref") = true := by decide
  constructor
  · simp [resolve_ref_xref, hconf, hauto]
  · simp [resolve_xref, std_resolve_xref, resolve_ref_xref, hconf, hauto, hne, hr]

/-- Witness for C2: auto-apply turned on over the test fixture, a plain
`:ref:`-style reference. -/
theorem auto_ref_generic_matches_hoverxref_role_witness :
    resolve_ref_xref { testConfig with hoverxref_auto_ref := true } "ref" (some testNode)
      "chapter-i" "chapter-i" =
      resolve_ref_xref { testConfig with hoverxref_auto_ref := true } "hoverxref" (some testNode)
        "chapter-i" "chapter-i"
    ∧ (resolve_xref { testConfig with hoverxref_auto_ref := true } [] "ref" (some testNode)
        "chapter-i" "chapter-i").refnode =
      some (inject_hoverxref_data { testConfig with hoverxref_auto_ref := true } testNode
        "chapter-i" "chapter-i") :=
  auto_ref_generic_matches_hoverxref_role { testConfig with hoverxref_auto_ref := true } []
    "ref" testNode "chapter-i" "chapter-i" (by decide) rfl rfl

/-- Claim C4: an object-style reference whose kind is in the registered
object-type set, with project and version configured, gets the hover metadata
injected whatever the value of the auto-apply flag. -/
theorem object_type_injects_regardless_of_auto_ref
    (cfg : Config) (object_types : List String) (typ : String) (n : Node)
    (docname labelid : String)
    (hobj : object_types.contains typ = true)
    (hconf : is_hoverxref_configured cfg = true) :
    ∀ b : Bool,
      resolve_obj_xref { cfg with hoverxref_auto_ref := b } object_types typ
          (some n) docname labelid =
        { refnode := some (inject_hoverxref_data cfg n docname labelid), warnings := 0 } := by
  intro b
  have hconf' : is_hoverxref_configured { cfg with hoverxref_auto_ref := b } = true := hconf
  have hmem : typ ∈ object_types := by simpa using hobj
  simp [resolve_obj_xref, hmem, hconf', inject_hoverxref_data, hoverxrefDict]

/-- Witness for C4 at the `confval` fixture of `test_custom_object`, with the
auto-apply flag off and on. -/
theorem object_type_injects_regardless_of_auto_ref_witness :
    resolve_obj_xref { testConfig with hoverxref_auto_ref := false } ["confval"] "confval"
        (some testNode) "configuration" "confval-conf-title" =
      { refnode := some (inject_hoverxref_data testConfig testNode "configuration"
          "confval-conf-title"), warnings := 0 }
    ∧ resolve_obj_xref { testConfig with hoverxref_auto_ref := true } ["confval"] "confval"
        (some testNode) "configuration" "confval-conf-title" =
      { refnode := some (inject_hoverxref_data testConfig testNode "configuration"
          "confval-conf-title"), warnings := 0 } :=
  ⟨object_type_injects_regardless_of_auto_ref testConfig ["confval"] "confval" testNode
      "configuration" "confval-conf-title" (by decide) rfl false,
   object_type_injects_regardless_of_auto_ref testConfig ["confval"] "confval" testNode
      "configuration" "confval-conf-title" (by decide) rfl true⟩

/-- Claim C8: when injection is triggered automatically — a generic reference
under the auto-apply flag, or a registered object type — while project or
version is unconfigured, the node passes through unchanged and no warning is
logged. -/
theorem unconfigured_auto_triggers_silent_skip
    (cfg : Config) (object_types : List String) (typ otyp : String) (n : Node)
    (docname labelid : String)
    (hconf : is_hoverxref_configured cfg = false)
    (htyp : typ ≠ "hoverxref") (hobj : object_types.contains otyp = true) :
    resolve_ref_xref { cfg with hoverxref_auto_ref := true } typ (some n) docname labelid =
      { refnode := some n, warnings := 0 }
    ∧ resolve_obj_xref cfg object_types otyp (some n) docname labelid =
      { refnode := some n, warnings := 0 } := by
  have hconf' : is_hoverxref_configured { cfg with hoverxref_auto_ref := true } = false := hconf
  have ht : (typ == "hoverxref") = false := by simp [htyp]
  constructor
  · simp [resolve_ref_xref, hconf', ht]
  · simp [resolve_obj_xref, hconf]

/-- Witness for C8: unconfigured extension, a generic `ref` under auto-apply
and a registered `confval` object reference. -/
theorem unconfigured_auto_triggers_silent_skip_witness :
    resolve_ref_xref { emptyConfig with hoverxref_auto_ref := true } "ref" (some testNode)
      "chapter-i" "chapter-i" = { refnode := some testNode, warnings := 0 }
    ∧ resolve_obj_xref emptyConfig ["confval"] "confval" (some testNode)
      "configuration" "confval-conf-title" = { refnode := some testNode, warnings := 0 } :=
  unconfigured_auto_triggers_silent_skip emptyConfig ["confval"] "ref" "confval" testNode
    "chapter-i" "chapter-i" rfl (by decide) (by decide)

/-- Counterexample to claim C9: `setup` registers eleven configuration
options, not nine. -/
theorem config_values_count_not_nine :
    (setup_config_values none none).length ≠ 9 := by decide

/-- Claim C9 as amended: `setup` registers exactly eleven configuration
options, in order the project id, version id, auto-apply flag, preview API
host, tooltip theme list, tooltip interactivity flag, tooltip max width,
animation name, animation duration, tooltip initial content text and tooltip
outer CSS class — exactly the names of the spec's interface list. -/
theorem config_values_exactly_eleven (dp dv : Option String) :
    (setup_config_values dp dv).length = 11
    ∧ (setup_config_values dp dv).map (fun x => x.1) =
      ["hoverxref_project", "hoverxref_version", "hoverxref_auto_ref",
       "hoverxref_tooltip_api_host", "hoverxref_tooltip_theme",
       "hoverxref_tooltip_interactive", "hoverxref_tooltip_maxwidth",
       "hoverxref_tooltip_animation", "hoverxref_tooltip_animation_duration",
       "hoverxref_tooltip_content", "hoverxref_tooltip_class"] :=
  ⟨rfl, rfl⟩

/-- Claim C10: the declared defaults of the project and version options come
from the `READTHEDOCS_PROJECT` and `READTHEDOCS_VERSION` environment
variables, so with both set non-empty and no user override the extension
counts as configured and the dedicated role injects the environment-derived
values. -/
theorem env_defaults_configure_and_inject
    (env : String → Option String) (p v : String) (auto : Bool) (n : Node)
    (docname labelid : String)
    (hp : env "READTHEDOCS_PROJECT" = some p) (hv : env "READTHEDOCS_VERSION" = some v)
    (hp' : p ≠ "") (hv' : v ≠ "") :
    (setup_config_values (env "READTHEDOCS_PROJECT") (env "READTHEDOCS_VERSION")).head? =
      some ("hoverxref_project", ConfigValue.optStr (some p), "html")
    ∧ is_hoverxref_configured (config_from_env env auto) = true
    ∧ (resolve_ref_xref (config_from_env env auto) "hoverxref" (some n) docname labelid).refnode =
        some { n with
          classes := ["hoverxref"],
          hoverxref := some [("data-project", p), ("data-version", v),
                             ("data-doc", docname), ("data-section", labelid)] } := by
  have hcfg : is_hoverxref_configured (config_from_env env auto) = true := by
    simp [is_hoverxref_configured, config_from_env, truthy, hp, hv, hp', hv']
  refine ⟨?_, hcfg, ?_⟩
  · simp [setup_config_values, hp]
  · have hcfg2 : is_hoverxref_configured
        { hoverxref_project := some p, hoverxref_version := some v,
          hoverxref_auto_ref := auto } = true := by
      simp [is_hoverxref_configured, truthy, hp', hv']
    simp [resolve_ref_xref, config_from_env, hp, hv, hcfg2, inject_hoverxref_data, hoverxrefDict]

/-- Witness for C10 at `testEnv` (project `envproject`, version
`envversion`). -/
theorem env_defaults_configure_and_inject_witness :
    (setup_config_values (testEnv "READTHEDOCS_PROJECT")
        (testEnv "READTHEDOCS_VERSION")).head? =
      some ("hoverxref_project", ConfigValue.optStr (some "envproject"), "html")
    ∧ is_hoverxref_configured (config_from_env testEnv false) = true
    ∧ (resolve_ref_xref (config_from_env testEnv false) "hoverxref" (some testNode)
        "chapter-i" "section-i").refnode =
        some { testNode with
          classes := ["hoverxref"],
          hoverxref := some [("data-project", "envproject"), ("data-version", "envversion"),
                             ("data-doc", "chapter-i"), ("data-section", "section-i")] } :=
  env_defaults_configure_and_inject testEnv "envproject" "envversion" false testNode
    "chapter-i" "section-i" rfl rfl (by decide) (by decide)

end Hoverxref
